import Mathlib

/-!
Verification of the optional-value container in `src/option.ts`.

The TypeScript class `Option<T>` stores its content in a single private
slot `value?: T`. A TypeScript value of an element type `T` may itself be
the JavaScript value `undefined` (when `T` admits it), and the slot's type
`T | undefined` cannot distinguish "no value stored" from "the value
`undefined` stored". We model a TypeScript value of element type `T` as
`TsVal β`: `TsVal.undef` is the JavaScript value `undefined`, and
`TsVal.val b` is any other value of the type. The container `OptionTS β`
holds one such slot, exactly as the class does.

Callback-invocation counts ("fn is never invoked", "fn is invoked exactly
once") are proved against instrumented variants (`mapC`, `orElseC`,
`unwrapOrElseC`, `matchC`) that thread an explicit state through the
supplied callbacks; each variant is the same one-line body as the source
method with the state passed along.
-/

/-- A TypeScript value of an element type that may admit the JavaScript
value `undefined`: `undef` is `undefined`, `val b` any other value. -/
inductive TsVal (β : Type) where
  | undef : TsVal β
  | val : β → TsVal β
  deriving DecidableEq

/-- The class `Option<T>` of `src/option.ts`: its private constructor
stores one slot `value?: T` (line 11). `none` in the slot is the JavaScript
`undefined`. -/
structure OptionTS (β : Type) where
  value : TsVal β
  deriving DecidableEq

namespace OptionTS

/-- `Option.Some` (option.ts lines 19-21): `return new Option(value)`. -/
def Some (v : TsVal β) : OptionTS β := ⟨v⟩

/-- `Option.None` (option.ts lines 28-30): `return new Option<T>(undefined)`. -/
def None : OptionTS β := ⟨TsVal.undef⟩

/-- `Option.isSome` (option.ts lines 37-39): `return this.value !== undefined`. -/
def isSome (o : OptionTS β) : Bool :=
  match o.value with
  | TsVal.undef => false
  | TsVal.val _ => true

/-- `Option.isNone` (option.ts lines 46-48): `return this.value === undefined`. -/
def isNone (o : OptionTS β) : Bool :=
  match o.value with
  | TsVal.undef => true
  | TsVal.val _ => false

/-- `Option.unwrap` (option.ts lines 56-61): throws
`new Error('Tried to unwrap an Option that is None')` when `isNone()`,
else returns `this.value as T`. The throw is modelled as `Except.error`
carrying the message. -/
def unwrap (o : OptionTS β) : Except String (TsVal β) :=
  if o.isNone then Except.error "Tried to unwrap an Option that is None"
  else Except.ok o.value

/-- `Option.unwrapOr` (option.ts lines 68-70):
`return this.isSome() ? (this.value as T) : defaultValue`. -/
def unwrapOr (o : OptionTS β) (defaultValue : TsVal β) : TsVal β :=
  if o.isSome then o.value else defaultValue

/-- `Option.unwrapOrElse` (option.ts lines 78-80):
`return this.isSome() ? (this.value as T) : fn()`. -/
def unwrapOrElse (o : OptionTS β) (fn : Unit → TsVal β) : TsVal β :=
  if o.isSome then o.value else fn ()

/-- `Option.map` (option.ts lines 88-93): if `isSome()`, return
`Option.Some(fn(this.value as T))`, else `Option.None<U>()`. -/
def map (o : OptionTS β) (fn : TsVal β → TsVal γ) : OptionTS γ :=
  if o.isSome then Some (fn o.value) else None

/-- `Option.orElse` (option.ts lines 101-103):
`return this.isSome() ? this : fn()`. -/
def orElse (o : OptionTS β) (fn : Unit → OptionTS β) : OptionTS β :=
  if o.isSome then o else fn ()

/-- `Option.match` (option.ts lines 112-114):
`return this.isSome() ? someFn(this.value as T) : noneFn()`. Named
`matchOpt` because `match` is a Lean keyword. -/
def matchOpt (o : OptionTS β) (someFn : TsVal β → γ) (noneFn : Unit → γ) : γ :=
  if o.isSome then someFn o.value else noneFn ()

/-- Instrumented `Option.unwrapOrElse`: the thunk is state-passing, so an
invocation count can be threaded through it. Same body as `unwrapOrElse`. -/
def unwrapOrElseC (o : OptionTS β) (fn : Unit → σ → TsVal β × σ) (s : σ) :
    TsVal β × σ :=
  if o.isSome then (o.value, s) else fn () s

/-- Instrumented `Option.map`: the mapping function is state-passing.
Same body as `map`. -/
def mapC (o : OptionTS β) (fn : TsVal β → σ → TsVal γ × σ) (s : σ) :
    OptionTS γ × σ :=
  if o.isSome then
    let p := fn o.value s
    (Some p.1, p.2)
  else (None, s)

/-- Instrumented `Option.orElse`: the thunk is state-passing.
Same body as `orElse`. -/
def orElseC (o : OptionTS β) (fn : Unit → σ → OptionTS β × σ) (s : σ) :
    OptionTS β × σ :=
  if o.isSome then (o, s) else fn () s

/-- Instrumented `Option.match`: both branch functions are state-passing.
Same body as `matchOpt`. -/
def matchC (o : OptionTS β) (someFn : TsVal β → σ → γ × σ)
    (noneFn : Unit → σ → γ × σ) (s : σ) : γ × σ :=
  if o.isSome then someFn o.value s else noneFn () s

end OptionTS

/-- A thunk that returns `r` and bumps a call counter each time it is
invoked: instantiating an instrumented operation with it counts the
invocations of the supplied callback. -/
def countThunk (r : α) : Unit → Nat → α × Nat := fun _ s => (r, s + 1)

/-- The successor map on modelled TypeScript numbers, used to instantiate
universally quantified theorems at a concrete mapping function. -/
def tsIncr : TsVal Nat → TsVal Nat :=
  fun w =>
    match w with
    | TsVal.undef => TsVal.undef
    | TsVal.val n => TsVal.val (n + 1)

/-- Claim C1 fails as stated: when the element type admits `undefined`,
`present(undefined)` is treated as absent — `Some(undefined).isSome()` is
`false` and `isNone()` is `true`, against the claim's "including
environment-specific empty-like values such as undefined". -/
theorem c1_counterexample :
    (OptionTS.Some (TsVal.undef : TsVal Nat)).isSome = false ∧
    (OptionTS.Some (TsVal.undef : TsVal Nat)).isNone = true :=
  ⟨rfl, rfl⟩

/-- Claim C1 (amended): for every element value other than the JavaScript
`undefined`, the container built by `present(v)` satisfies
`isPresent() = true` and `isAbsent() = false`; no validation is performed,
so empty-like values such as `0` or empty text are not treated as absent. -/
theorem c1_present_predicates (β : Type) (v : TsVal β) (h : v ≠ TsVal.undef) :
    (OptionTS.Some v).isSome = true ∧ (OptionTS.Some v).isNone = false := by
  cases v with
  | undef => exact absurd rfl h
  | val b => exact ⟨rfl, rfl⟩

/-- Claim C1 witness: the empty string, an empty-like value, is not
treated as absent. -/
theorem c1_present_predicates_witness :
    (TsVal.val "" : TsVal String) ≠ TsVal.undef ∧
    ((OptionTS.Some (TsVal.val "" : TsVal String)).isSome = true ∧
      (OptionTS.Some (TsVal.val "" : TsVal String)).isNone = false) :=
  ⟨by simp, c1_present_predicates String (TsVal.val "") (by simp)⟩

/-- Claim C2 fails as stated: when the element type admits `undefined`,
`present(undefined).unwrap()` throws instead of returning the value. -/
theorem c2_counterexample :
    (OptionTS.Some (TsVal.undef : TsVal Nat)).unwrap =
      Except.error "Tried to unwrap an Option that is None" :=
  rfl

/-- Claim C2 (amended): for every element value other than the JavaScript
`undefined`, `present(v).unwrap()` returns `v` itself and does not raise. -/
theorem c2_unwrap_present (β : Type) (v : TsVal β) (h : v ≠ TsVal.undef) :
    (OptionTS.Some v).unwrap = Except.ok v := by
  cases v with
  | undef => exact absurd rfl h
  | val b => rfl

/-- Claim C2 witness at the value 42. -/
theorem c2_unwrap_present_witness :
    (TsVal.val 42 : TsVal Nat) ≠ TsVal.undef ∧
    (OptionTS.Some (TsVal.val 42 : TsVal Nat)).unwrap =
      Except.ok (TsVal.val 42) :=
  ⟨by simp, c2_unwrap_present Nat (TsVal.val 42) (by simp)⟩

/-- Claim C3: when the element type admits `undefined`,
`Option.Some(undefined)` is observationally identical to `Option.None()`
— in fact structurally equal to it: `isSome()` is false, `isNone()` is
true, `unwrap()` throws the None error, `unwrapOr(d)` returns `d`,
`map(fn)` returns an absent container without invoking `fn`, `orElse(fn)`
invokes `fn` once and returns its result, and `match` dispatches to the
None branch. -/
theorem c3_some_undef_is_none (β γ : Type) (d : TsVal β)
    (fn : TsVal β → TsVal γ) (r : OptionTS β) (sf : TsVal β → γ) (u : γ)
    (s : Nat) :
    (OptionTS.Some (TsVal.undef : TsVal β)) = OptionTS.None ∧
    (OptionTS.Some (TsVal.undef : TsVal β)).isSome = false ∧
    (OptionTS.Some (TsVal.undef : TsVal β)).isNone = true ∧
    (OptionTS.Some (TsVal.undef : TsVal β)).unwrap =
      Except.error "Tried to unwrap an Option that is None" ∧
    (OptionTS.Some (TsVal.undef : TsVal β)).unwrapOr d = d ∧
    OptionTS.mapC (OptionTS.Some (TsVal.undef : TsVal β))
      (fun w t => (fn w, t + 1)) s = (OptionTS.None, s) ∧
    OptionTS.orElseC (OptionTS.Some (TsVal.undef : TsVal β))
      (countThunk r) s = (r, s + 1) ∧
    (OptionTS.Some (TsVal.undef : TsVal β)).matchOpt sf (fun _ => u) = u :=
  ⟨rfl, rfl, rfl, rfl, rfl, rfl, rfl, rfl⟩

/-- Claim C4: `unwrap()` raises the error with message "Tried to unwrap an
Option that is None" exactly when the container is absent, and returns the
stored value exactly when it is present; it is the only operation of the
class whose body contains a throw. -/
theorem c4_unwrap_error_iff_absent (β : Type) (o : OptionTS β) :
    (o.unwrap = Except.error "Tried to unwrap an Option that is None" ↔
      o.isNone = true) ∧
    (o.unwrap = Except.ok o.value ↔ o.isSome = true) := by
  obtain ⟨w⟩ := o
  cases w <;>
    simp [OptionTS.unwrap, OptionTS.isNone, OptionTS.isSome]

/-- Claim C5 fails as stated: when the element type admits `undefined`,
`present(undefined).map(fn)` is absent, not "a present container whose
unwrap() equals fn(v)" — here with `fn` the identity, the result is
`None` and its `unwrap` throws. -/
theorem c5_counterexample :
    (OptionTS.map (OptionTS.Some (TsVal.undef : TsVal Nat))
      (fun w => w)).isSome = false ∧
    (OptionTS.map (OptionTS.Some (TsVal.undef : TsVal Nat))
      (fun w => w)).unwrap =
      Except.error "Tried to unwrap an Option that is None" :=
  ⟨rfl, rfl⟩

/-- Claim C5 (amended): for every element value `v` other than `undefined`
and every `fn` with `fn v` not `undefined`, `present(v).map(fn)` invokes
`fn` exactly once and is a present container whose `unwrap()` equals
`fn(v)`; `absent().map(fn)` is absent and never invokes `fn`; and
`present(v).map(x => x)` is structurally equal to `present(v)`. -/
theorem c5_map_laws (β γ : Type) (v : TsVal β) (fn : TsVal β → TsVal γ)
    (s : Nat) (h : v ≠ TsVal.undef) (hfn : fn v ≠ TsVal.undef) :
    OptionTS.mapC (OptionTS.Some v) (fun w t => (fn w, t + 1)) s =
      (OptionTS.Some (fn v), s + 1) ∧
    ((OptionTS.Some v).map fn).isSome = true ∧
    ((OptionTS.Some v).map fn).unwrap = Except.ok (fn v) ∧
    OptionTS.mapC (OptionTS.None : OptionTS β) (fun w t => (fn w, t + 1)) s =
      (OptionTS.None, s) ∧
    ((OptionTS.None : OptionTS β).map fn).isNone = true ∧
    (OptionTS.Some v).map (fun w => w) = OptionTS.Some v := by
  cases v with
  | undef => exact absurd rfl h
  | val b =>
    cases hc : fn (TsVal.val b) with
    | undef => exact absurd hc hfn
    | val c =>
      refine ⟨?_, ?_, ?_, ?_, ?_, ?_⟩ <;>
        simp [OptionTS.map, OptionTS.mapC, OptionTS.Some, OptionTS.None,
          OptionTS.isSome, OptionTS.isNone, OptionTS.unwrap, hc]

/-- Claim C5 witness: mapping successor over `present(41)` yields a
present container holding 42, with one invocation. -/
theorem c5_map_laws_witness :
    ((TsVal.val 41 : TsVal Nat) ≠ TsVal.undef ∧
      tsIncr (TsVal.val 41) ≠ TsVal.undef) ∧
    (OptionTS.mapC (OptionTS.Some (TsVal.val 41))
        (fun w t => (tsIncr w, t + 1)) 0 =
      (OptionTS.Some (TsVal.val 42), 1) ∧
    ((OptionTS.Some (TsVal.val 41)).map tsIncr).isSome = true ∧
    ((OptionTS.Some (TsVal.val 41)).map tsIncr).unwrap =
      Except.ok (tsIncr (TsVal.val 41)) ∧
    OptionTS.mapC (OptionTS.None : OptionTS Nat)
        (fun w t => (tsIncr w, t + 1)) 0 = (OptionTS.None, 0) ∧
    ((OptionTS.None : OptionTS Nat).map tsIncr).isNone = true ∧
    (OptionTS.Some (TsVal.val 41)).map (fun w => w) =
      OptionTS.Some (TsVal.val 41)) :=
  ⟨⟨by decide, by decide⟩,
    c5_map_laws Nat Nat (TsVal.val 41) tsIncr 0 (by decide) (by decide)⟩

/-- Claim C6 fails as stated: when the element type admits `undefined`,
`present(undefined).orElse(fn)` does not return the receiver — it invokes
`fn` (counter goes 0 to 1) and returns `fn()`'s container instead. -/
theorem c6_counterexample :
    OptionTS.orElseC (OptionTS.Some (TsVal.undef : TsVal Nat))
      (countThunk (OptionTS.Some (TsVal.val 99))) 0 =
      (OptionTS.Some (TsVal.val 99), 1) ∧
    (OptionTS.Some (TsVal.undef : TsVal Nat)).orElse
        (fun _ => OptionTS.Some (TsVal.val 99)) ≠
      OptionTS.Some (TsVal.undef : TsVal Nat) := by
  exact ⟨rfl, by decide⟩

/-- Claim C6 (amended): for every element value `v` other than
`undefined`, `present(v).orElse(fn)` returns the receiver unchanged and
`fn` is never invoked (for any state-passing `fn`, the state is
untouched); `absent().orElse(fn)` invokes `fn` exactly once and returns
exactly the container `fn` produced. -/
theorem c6_orElse_laws (β : Type) (v : TsVal β) (r : OptionTS β)
    (fn : Unit → Nat → OptionTS β × Nat) (g : Unit → OptionTS β) (s : Nat)
    (h : v ≠ TsVal.undef) :
    OptionTS.orElseC (OptionTS.Some v) fn s = (OptionTS.Some v, s) ∧
    (OptionTS.Some v).orElse g = OptionTS.Some v ∧
    OptionTS.orElseC (OptionTS.None : OptionTS β) (countThunk r) s =
      (r, s + 1) ∧
    (OptionTS.None : OptionTS β).orElse g = g () := by
  cases v with
  | undef => exact absurd rfl h
  | val b => exact ⟨rfl, rfl, rfl, rfl⟩

/-- Claim C6 witness: `present(42).orElse` ignores its thunk;
`absent().orElse` runs it once. -/
theorem c6_orElse_laws_witness :
    (TsVal.val 42 : TsVal Nat) ≠ TsVal.undef ∧
    (OptionTS.orElseC (OptionTS.Some (TsVal.val 42 : TsVal Nat))
        (countThunk (OptionTS.Some (TsVal.val 99))) 0 =
      (OptionTS.Some (TsVal.val 42), 0) ∧
    (OptionTS.Some (TsVal.val 42 : TsVal Nat)).orElse
        (fun _ => OptionTS.Some (TsVal.val 99)) =
      OptionTS.Some (TsVal.val 42) ∧
    OptionTS.orElseC (OptionTS.None : OptionTS Nat)
        (countThunk (OptionTS.Some (TsVal.val 99))) 0 =
      (OptionTS.Some (TsVal.val 99), 1) ∧
    (OptionTS.None : OptionTS Nat).orElse
        (fun _ => OptionTS.Some (TsVal.val 99)) =
      OptionTS.Some (TsVal.val 99)) :=
  ⟨by decide,
    c6_orElse_laws Nat (TsVal.val 42)
      (OptionTS.Some (TsVal.val 99))
      (countThunk (OptionTS.Some (TsVal.val 99)))
      (fun _ => OptionTS.Some (TsVal.val 99)) 0 (by decide)⟩

/-- Claim C7 fails as stated: when the element type admits `undefined`,
`present(undefined).unwrapOrElse(fn)` invokes `fn` and returns its result
99 instead of the wrapped value. -/
theorem c7_counterexample :
    OptionTS.unwrapOrElseC (OptionTS.Some (TsVal.undef : TsVal Nat))
      (countThunk (TsVal.val 99)) 0 = (TsVal.val 99, 1) ∧
    (TsVal.val 99 : TsVal Nat) ≠ TsVal.undef := by
  exact ⟨rfl, by decide⟩

/-- Claim C7 (amended): for every element value `v` other than
`undefined`, `present(v).unwrapOrElse(fn)` returns `v` without invoking
`fn` (for any state-passing `fn`, the state is untouched);
`absent().unwrapOrElse(fn)` invokes `fn` exactly once and returns
`fn()`'s result. -/
theorem c7_unwrapOrElse_laws (β : Type) (v d : TsVal β)
    (fn : Unit → Nat → TsVal β × Nat) (g : Unit → TsVal β) (s : Nat)
    (h : v ≠ TsVal.undef) :
    OptionTS.unwrapOrElseC (OptionTS.Some v) fn s = (v, s) ∧
    (OptionTS.Some v).unwrapOrElse g = v ∧
    OptionTS.unwrapOrElseC (OptionTS.None : OptionTS β) (countThunk d) s =
      (d, s + 1) ∧
    (OptionTS.None : OptionTS β).unwrapOrElse g = g () := by
  cases v with
  | undef => exact absurd rfl h
  | val b => exact ⟨rfl, rfl, rfl, rfl⟩

/-- Claim C7 witness: `present(42).unwrapOrElse` returns 42 with zero
invocations; `absent().unwrapOrElse` returns the thunk's 99 with one. -/
theorem c7_unwrapOrElse_laws_witness :
    (TsVal.val 42 : TsVal Nat) ≠ TsVal.undef ∧
    (OptionTS.unwrapOrElseC (OptionTS.Some (TsVal.val 42 : TsVal Nat))
        (countThunk (TsVal.val 99)) 0 = (TsVal.val 42, 0) ∧
    (OptionTS.Some (TsVal.val 42 : TsVal Nat)).unwrapOrElse
        (fun _ => TsVal.val 99) = TsVal.val 42 ∧
    OptionTS.unwrapOrElseC (OptionTS.None : OptionTS Nat)
        (countThunk (TsVal.val 99)) 0 = (TsVal.val 99, 1) ∧
    (OptionTS.None : OptionTS Nat).unwrapOrElse (fun _ => TsVal.val 99) =
      TsVal.val 99) :=
  ⟨by decide,
    c7_unwrapOrElse_laws Nat (TsVal.val 42) (TsVal.val 99)
      (countThunk (TsVal.val 99)) (fun _ => TsVal.val 99) 0 (by decide)⟩

/-- Claim C8 fails as stated: when the element type admits `undefined`,
`present(undefined).unwrapOr(5)` returns the default 5, not the wrapped
value `undefined`. -/
theorem c8_counterexample :
    (OptionTS.Some (TsVal.undef : TsVal Nat)).unwrapOr (TsVal.val 5) =
      TsVal.val 5 ∧
    (TsVal.val 5 : TsVal Nat) ≠ TsVal.undef := by
  exact ⟨rfl, by decide⟩

/-- Claim C8 (amended): for every element value `v` other than
`undefined` and every default `d`, `present(v).unwrapOr(d)` returns `v`
and `absent().unwrapOr(d)` returns `d`; the operation is total. -/
theorem c8_unwrapOr_laws (β : Type) (v d : TsVal β) (h : v ≠ TsVal.undef) :
    (OptionTS.Some v).unwrapOr d = v ∧
    (OptionTS.None : OptionTS β).unwrapOr d = d := by
  cases v with
  | undef => exact absurd rfl h
  | val b => exact ⟨rfl, rfl⟩

/-- Claim C8 witness: `present(42).unwrapOr(0) = 42` and
`absent().unwrapOr(0) = 0`. -/
theorem c8_unwrapOr_laws_witness :
    (TsVal.val 42 : TsVal Nat) ≠ TsVal.undef ∧
    ((OptionTS.Some (TsVal.val 42 : TsVal Nat)).unwrapOr (TsVal.val 0) =
      TsVal.val 42 ∧
    (OptionTS.None : OptionTS Nat).unwrapOr (TsVal.val 0) = TsVal.val 0) :=
  ⟨by decide, c8_unwrapOr_laws Nat (TsVal.val 42) (TsVal.val 0) (by decide)⟩

/-- Claim C9 fails as stated: when the element type admits `undefined`,
`present(undefined).match(onP, onA)` dispatches to the `onAbsent` branch
(here returning 0), not to `onPresent` applied to the wrapped value (here
returning 1). -/
theorem c9_counterexample :
    (OptionTS.Some (TsVal.undef : TsVal Nat)).matchOpt
      (fun _ => (1 : Nat)) (fun _ => (0 : Nat)) = 0 ∧
    OptionTS.matchC (OptionTS.Some (TsVal.undef : TsVal Nat))
      (fun _ pq => ((1 : Nat), (pq.1 + 1, pq.2)))
      (fun _ pq => ((0 : Nat), (pq.1, pq.2 + 1))) ((0, 0) : Nat × Nat) =
      (0, (0, 1)) :=
  ⟨rfl, rfl⟩

/-- Claim C9 (amended): for every element value `v` other than
`undefined`, `present(v).match(onP, onA)` executes only the `onPresent`
branch and returns `onP(v)`; `absent().match(onP, onA)` executes only the
`onAbsent` branch and returns `onA()`; and for every container exactly one
of the two branches executes per call (branch counters from (0,0) end at
(1,0) or (0,1)). -/
theorem c9_match_laws (β γ : Type) (v : TsVal β) (sf : TsVal β → γ)
    (nf : Unit → γ) (p a : Nat) (h : v ≠ TsVal.undef) :
    OptionTS.matchC (OptionTS.Some v)
      (fun w pq => (sf w, (pq.1 + 1, pq.2)))
      (fun _ pq => (nf (), (pq.1, pq.2 + 1))) (p, a) = (sf v, (p + 1, a)) ∧
    (OptionTS.Some v).matchOpt sf nf = sf v ∧
    OptionTS.matchC (OptionTS.None : OptionTS β)
      (fun w pq => (sf w, (pq.1 + 1, pq.2)))
      (fun _ pq => (nf (), (pq.1, pq.2 + 1))) (p, a) = (nf (), (p, a + 1)) ∧
    (OptionTS.None : OptionTS β).matchOpt sf nf = nf () ∧
    (∀ o : OptionTS β,
      (OptionTS.matchC o
        (fun w pq => (sf w, (pq.1 + 1, pq.2)))
        (fun _ pq => (nf (), (pq.1, pq.2 + 1))) ((0, 0) : Nat × Nat)).2 =
          (1, 0) ∨
      (OptionTS.matchC o
        (fun w pq => (sf w, (pq.1 + 1, pq.2)))
        (fun _ pq => (nf (), (pq.1, pq.2 + 1))) ((0, 0) : Nat × Nat)).2 =
          (0, 1)) := by
  cases v with
  | undef => exact absurd rfl h
  | val b =>
    refine ⟨rfl, rfl, rfl, rfl, ?_⟩
    intro o
    obtain ⟨w⟩ := o
    cases w with
    | undef => exact Or.inr rfl
    | val c => exact Or.inl rfl

/-- Claim C9 witness: `present(42).match` runs only the present branch
returning 43; `absent().match` runs only the absent branch returning 0. -/
theorem c9_match_laws_witness :
    (TsVal.val 42 : TsVal Nat) ≠ TsVal.undef ∧
    (OptionTS.matchC (OptionTS.Some (TsVal.val 42 : TsVal Nat))
      (fun w pq => (tsIncr w, (pq.1 + 1, pq.2)))
      (fun _ pq => (TsVal.val 0, (pq.1, pq.2 + 1))) ((0, 0) : Nat × Nat) =
        (TsVal.val 43, (1, 0)) ∧
    (OptionTS.Some (TsVal.val 42 : TsVal Nat)).matchOpt tsIncr
      (fun _ => TsVal.val 0) = TsVal.val 43 ∧
    OptionTS.matchC (OptionTS.None : OptionTS Nat)
      (fun w pq => (tsIncr w, (pq.1 + 1, pq.2)))
      (fun _ pq => (TsVal.val 0, (pq.1, pq.2 + 1))) ((0, 0) : Nat × Nat) =
        (TsVal.val 0, (0, 1)) ∧
    (OptionTS.None : OptionTS Nat).matchOpt tsIncr
      (fun _ => TsVal.val 0) = TsVal.val 0 ∧
    (∀ o : OptionTS Nat,
      (OptionTS.matchC o
        (fun w pq => (tsIncr w, (pq.1 + 1, pq.2)))
        (fun _ pq => (TsVal.val 0, (pq.1, pq.2 + 1))) ((0, 0) : Nat × Nat)).2 =
          (1, 0) ∨
      (OptionTS.matchC o
        (fun w pq => (tsIncr w, (pq.1 + 1, pq.2)))
        (fun _ pq => (TsVal.val 0, (pq.1, pq.2 + 1))) ((0, 0) : Nat × Nat)).2 =
          (0, 1))) :=
  ⟨by decide,
    c9_match_laws Nat (TsVal Nat) (TsVal.val 42) tsIncr
      (fun _ => TsVal.val 0) 0 0 (by decide)⟩

/-- Claim C10: for every container, `isNone()` is the Boolean negation of
`isSome()`, so exactly one of the two predicates is true; in particular
`absent().isSome() = false` and `absent().isNone() = true`. -/
theorem c10_predicates_exclusive (β : Type) (o : OptionTS β) :
    o.isNone = !o.isSome ∧
    ((o.isSome = true ∧ o.isNone = false) ∨
      (o.isSome = false ∧ o.isNone = true)) ∧
    (OptionTS.None : OptionTS β).isSome = false ∧
    (OptionTS.None : OptionTS β).isNone = true := by
  obtain ⟨w⟩ := o
  cases w with
  | undef => exact ⟨rfl, Or.inr ⟨rfl, rfl⟩, rfl, rfl⟩
  | val b => exact ⟨rfl, Or.inl ⟨rfl, rfl⟩, rfl, rfl⟩
